import Mathlib

/-!
Verification of the xlsx-to-json worker (the `formatExcelData` variant):
a shallow embedding of the sheet-projection function `formatExcelData`
and of the request-validation pipeline in `fetch`, together with proofs
of the specified properties.

Cells are the primitive values the decoder produces: strings, numbers,
booleans, or null (`defval: null`).  A decoded sheet is a list of rows,
each row a list of cells.  Row objects are JavaScript objects, modelled
as association lists with JS semantics: property assignment updates an
existing key in place (keeping its position) and otherwise appends.
-/

/-- A primitive cell value as produced by the spreadsheet decoder. -/
inductive Cell where
  | str : String → Cell
  | num : Int → Cell
  | bool : Bool → Cell
  | null : Cell
deriving DecidableEq

/-- JavaScript `String(x)` coercion on a cell value. -/
def cellToString : Cell → String
  | .str s => s
  | .num n => toString n
  | .bool b => if b then "true" else "false"
  | .null => "null"

/-- The whitespace characters stripped by JavaScript `String.prototype.trim`. -/
def isJsWhitespace (c : Char) : Bool :=
  c == ' ' || c == '\t' || c == '\n' || c == '\r' ||
  c == Char.ofNat 11 || c == Char.ofNat 12

/-- JavaScript `String.prototype.trim`: strip leading and trailing whitespace. -/
def jsTrim (s : String) : String :=
  String.mk (((s.toList.dropWhile isJsWhitespace).reverse.dropWhile isJsWhitespace).reverse)

/-- `String(headersRow[i]).trim()`: the header string for a header cell. -/
def headerString (c : Cell) : String :=
  jsTrim (cellToString c)

/-- A JavaScript object with cell values: keys in insertion order. -/
abbrev RowObject := List (String × Cell)

/-- Whether the object already has the property `k`. -/
def objHasKey (obj : RowObject) (k : String) : Bool :=
  obj.any (fun p => p.1 == k)

/-- JavaScript property assignment `obj[k] = v`: update the existing entry
in place when the key is present, otherwise append a new entry. -/
def objInsert (obj : RowObject) (k : String) (v : Cell) : RowObject :=
  if objHasKey obj k then
    obj.map (fun p => if p.1 == k then (k, v) else p)
  else
    obj ++ [(k, v)]

/-- JavaScript property read `obj[k]` (on these objects each key occurs once,
so the first match is the value). -/
def objLookup (obj : RowObject) (k : String) : Option Cell :=
  (obj.find? (fun p => p.1 == k)).map (fun p => p.2)

/-- The keys of the object, in order. -/
def objKeys (obj : RowObject) : List String :=
  obj.map (fun p => p.1)

/-- The inner loop of `formatExcelData`:
`for colIndex in 0..cols-1: rowObject[headers[colIndex]] = currentRow[colIndex] ?? null`.
An out-of-range read yields `undefined`, which `?? null` turns into null. -/
def buildRowObject (headers : List String) (row : List Cell) : RowObject :=
  (List.range headers.length).foldl
    (fun obj colIndex => objInsert obj (headers.getD colIndex "") (row.getD colIndex Cell.null))
    []

/-- The wrapper record returned for a nonempty sheet:
`{data: result, totalRows: rows, totalColumns: cols}`. -/
structure ProjectedResult where
  data : List RowObject
  totalRows : Nat
  totalColumns : Nat
deriving DecidableEq

/-- The value returned by `formatExcelData`: the empty object `\x7b\x7d`
for an empty sheet, otherwise the wrapper record. -/
inductive FormatOutput where
  | emptyObj : FormatOutput
  | wrapped : ProjectedResult → FormatOutput
deriving DecidableEq

/-- `formatExcelData` from the source: empty input returns the empty object;
otherwise row 0 supplies the headers (string-coerced and trimmed), each
later row becomes one row object, and the result is wrapped with
`totalRows = data.length - 1` and `totalColumns = headers.length`. -/
def formatExcelData (data : List (List Cell)) : FormatOutput :=
  match data with
  | [] => .emptyObj
  | headersRow :: dataRows =>
    .wrapped
      { data := dataRows.map (fun r => buildRowObject (headersRow.map headerString) r)
        totalRows := dataRows.length
        totalColumns := (headersRow.map headerString).length }

/-- Lower-case hexadecimal digit, as in JavaScript string escapes. -/
def hexDigit (n : Nat) : Char :=
  if n < 10 then Char.ofNat (48 + n) else Char.ofNat (87 + n)

/-- `JSON.stringify` escaping of one character inside a string literal. -/
def escapeJsonChar (c : Char) : String :=
  if c == Char.ofNat 34 then "\\\""
  else if c == '\\' then "\\\\"
  else if c == '\n' then "\\n"
  else if c == '\t' then "\\t"
  else if c == '\r' then "\\r"
  else if c == Char.ofNat 8 then "\\b"
  else if c == Char.ofNat 12 then "\\f"
  else if c.toNat < 32 then
    "\\u00" ++ String.mk [hexDigit (c.toNat / 16), hexDigit (c.toNat % 16)]
  else String.mk [c]

/-- A JSON string literal for `s`. -/
def jsonQuote (s : String) : String :=
  "\"" ++ String.join (s.toList.map escapeJsonChar) ++ "\""

/-- JSON serialization of one cell value. -/
def cellToJson : Cell → String
  | .str s => jsonQuote s
  | .num n => toString n
  | .bool b => if b then "true" else "false"
  | .null => "null"

/-- JSON serialization of a row object (keys in insertion order). -/
def objToJson (obj : RowObject) : String :=
  "\x7b" ++ String.intercalate "," (obj.map (fun p => jsonQuote p.1 ++ ":" ++ cellToJson p.2)) ++ "\x7d"

/-- JSON serialization of the wrapper record. -/
def resultToJson (r : ProjectedResult) : String :=
  "\x7b\"data\":[" ++ String.intercalate "," (r.data.map objToJson) ++ "],\"totalRows\":"
    ++ toString r.totalRows ++ ",\"totalColumns\":" ++ toString r.totalColumns ++ "\x7d"

/-- `JSON.stringify(jsonData)` on the value returned by `formatExcelData`. -/
def stringifyOutput : FormatOutput → String
  | .emptyObj => "\x7b\x7d"
  | .wrapped r => resultToJson r

/-- `MAX_FILE_SIZE = 5 * 1024 * 1024`. -/
def MAX_FILE_SIZE : Nat := 5 * 1024 * 1024

/-- The Open XML spreadsheet MIME type accepted by the worker. -/
def xlsxMimeType : String :=
  "application/vnd.openxmlformats-officedocument.spreadsheetml.sheet"

/-- The legacy binary spreadsheet MIME type accepted by the worker. -/
def xlsMimeType : String :=
  "application/vnd.ms-excel"

/-- `isValidExcelType` from the source. -/
def isValidExcelType (mimeType : String) : Bool :=
  xlsxMimeType == mimeType || xlsMimeType == mimeType

/-- The uploaded file as the validator sees it: byte length and declared
content-type (the raw bytes only matter to the out-of-scope decoder). -/
structure UploadedFile where
  size : Nat
  type : String
deriving DecidableEq

/-- An inbound request: its method, and the `file` form field when it holds
a `File` object (`none` covers both a missing field and a non-file value). -/
structure RequestModel where
  method : String
  file : Option UploadedFile
deriving DecidableEq

/-- Outcome of the validation checks: a rejection response (status and body)
or the accepted file. -/
inductive ValidationResult where
  | reject : Nat → String → ValidationResult
  | accept : UploadedFile → ValidationResult
deriving DecidableEq

/-- The 413 body: `File exceeds $\x7bMAX_FILE_SIZE / 1024 / 1024\x7dMB limit`. -/
def sizeLimitMessage : String :=
  "File exceeds " ++ toString (MAX_FILE_SIZE / 1024 / 1024) ++ "MB limit"

/-- The fixed 500 body for processing failures. -/
def processingErrorMessage : String :=
  "Error processing Excel file"

/-- The four guard clauses at the top of `fetch`, in source order:
method must be POST (else 405), the `file` field must hold a file (else 400),
the size must not exceed `MAX_FILE_SIZE` (else 413), and the declared type
must be an accepted Excel MIME type (else 400).  The first failure returns. -/
def validateRequest (req : RequestModel) : ValidationResult :=
  if req.method ≠ "POST" then .reject 405 "Method Not Allowed"
  else
    match req.file with
    | none => .reject 400 "Invalid file upload"
    | some file =>
      if file.size > MAX_FILE_SIZE then .reject 413 sizeLimitMessage
      else if ¬ isValidExcelType file.type then
        .reject 400 "Invalid file type. Please upload an Excel file (XLSX or XLS)"
      else .accept file

/-- An HTTP response: status code and body text. -/
structure Response where
  status : Nat
  body : String
deriving DecidableEq

/-- The whole `fetch` handler.  The spreadsheet decoder is the out-of-scope
collaborator, passed in as a function returning either the decoded grid or
an error; a decoding error is caught by the surrounding try/catch and
becomes the fixed 500 response.  On success the formatted data is
serialized as the 200 body. -/
def handleRequest (req : RequestModel)
    (decode : UploadedFile → Except String (List (List Cell))) : Response :=
  match validateRequest req with
  | .reject s b => ⟨s, b⟩
  | .accept file =>
    match decode file with
    | .error _ => ⟨500, processingErrorMessage⟩
    | .ok rawData => ⟨200, stringifyOutput (formatExcelData rawData)⟩

/-!
Laws of the JavaScript object operations, and invariants of the
row-building fold.
-/

theorem objKeys_cons (p : String × Cell) (rest : RowObject) :
    objKeys (p :: rest) = p.1 :: objKeys rest := rfl

theorem objLookup_cons_pos {p : String × Cell} {rest : RowObject} {k : String}
    (h : p.1 = k) : objLookup (p :: rest) k = some p.2 := by
  unfold objLookup
  rw [List.find?_cons_of_pos _ (by simp [h])]
  rfl

theorem objLookup_cons_neg {p : String × Cell} {rest : RowObject} {k : String}
    (h : p.1 ≠ k) : objLookup (p :: rest) k = objLookup rest k := by
  unfold objLookup
  rw [List.find?_cons_of_neg _ (by simp [h])]

theorem objHasKey_cons (p : String × Cell) (rest : RowObject) (k : String) :
    objHasKey (p :: rest) k = (p.1 == k || objHasKey rest k) := by
  simp [objHasKey]

theorem objLookup_map_update (obj : RowObject) (k : String) (v : Cell) (k' : String) :
    objLookup (obj.map (fun p => if p.1 == k then (k, v) else p)) k' =
      if k' = k then (if objHasKey obj k then some v else none) else objLookup obj k' := by
  induction obj with
  | nil => by_cases hk' : k' = k <;> simp [objLookup, objHasKey, hk']
  | cons p rest ih =>
    rw [List.map_cons]
    by_cases hp : p.1 = k
    · have h1 : (if p.1 == k then (k, v) else p) = (k, v) := by simp [hp]
      rw [h1]
      by_cases hk' : k' = k
      · subst hk'
        rw [objLookup_cons_pos (p := (k', v)) rfl, if_pos rfl]
        have h2 : objHasKey (p :: rest) k' = true := by
          rw [objHasKey_cons]
          simp [hp]
        rw [if_pos h2]
      · rw [objLookup_cons_neg (p := (k, v)) (fun h => hk' h.symm), ih,
          if_neg hk', if_neg hk', objLookup_cons_neg (fun h => hk' (hp ▸ h).symm)]
    · have h1 : (if p.1 == k then (k, v) else p) = p := by simp [hp]
      rw [h1]
      by_cases hpk : p.1 = k'
      · have hk' : k' ≠ k := fun h => hp (hpk.trans h)
        rw [objLookup_cons_pos hpk, if_neg hk', objLookup_cons_pos hpk]
      · rw [objLookup_cons_neg hpk, ih]
        by_cases hk' : k' = k
        · subst hk'
          rw [if_pos rfl, if_pos rfl]
          have h2 : objHasKey (p :: rest) k' = objHasKey rest k' := by
            rw [objHasKey_cons]
            simp [hp]
          rw [h2]
        · rw [if_neg hk', if_neg hk', objLookup_cons_neg hpk]

theorem objLookup_eq_none_of_not_hasKey (obj : RowObject) (k : String)
    (h : objHasKey obj k = false) : objLookup obj k = none := by
  simp only [objHasKey, List.any_eq_false] at h
  unfold objLookup
  rw [List.find?_eq_none.mpr h]
  rfl

theorem objLookup_objInsert (obj : RowObject) (k : String) (v : Cell) (k' : String) :
    objLookup (objInsert obj k v) k' = if k' = k then some v else objLookup obj k' := by
  unfold objInsert
  by_cases h : objHasKey obj k = true
  · rw [if_pos h, objLookup_map_update]
    by_cases hk' : k' = k <;> simp [hk', h]
  · have hfalse : objHasKey obj k = false := by simpa using h
    rw [if_neg h]
    unfold objLookup
    rw [List.find?_append]
    by_cases hk' : k' = k
    · subst hk'
      have hnone : List.find? (fun p => p.1 == k') obj = none := by
        refine List.find?_eq_none.mpr ?_
        simp only [objHasKey, List.any_eq_false] at hfalse
        exact hfalse
      rw [hnone]
      simp [List.find?_cons]
    · have hone : List.find? (fun p => p.1 == k') [(k, v)] = none := by
        simp [List.find?_cons, Ne.symm hk']
      rw [hone, Option.or_none, if_neg hk']

theorem objKeys_map_update (obj : RowObject) (k : String) (v : Cell) :
    objKeys (obj.map (fun p => if p.1 == k then (k, v) else p)) = objKeys obj := by
  induction obj with
  | nil => rfl
  | cons p rest ih =>
    rw [List.map_cons, objKeys_cons, objKeys_cons, ih]
    by_cases hp : p.1 = k <;> simp [hp]

theorem objKeys_objInsert (obj : RowObject) (k : String) (v : Cell) :
    objKeys (objInsert obj k v) =
      if objHasKey obj k then objKeys obj else objKeys obj ++ [k] := by
  unfold objInsert
  by_cases h : objHasKey obj k = true
  · rw [if_pos h, if_pos h, objKeys_map_update]
  · rw [if_neg h, if_neg h]
    simp [objKeys]

theorem objHasKey_iff_mem_keys (obj : RowObject) (k : String) :
    objHasKey obj k = true ↔ k ∈ objKeys obj := by
  simp only [objHasKey, List.any_eq_true, objKeys, List.mem_map, beq_iff_eq]

theorem foldl_objInsert_lookup_preserved (headers : List String) (row : List Cell)
    (key : String) (idxs : List Nat) (obj : RowObject)
    (h : ∀ i ∈ idxs, headers.getD i "" ≠ key) :
    objLookup (idxs.foldl
        (fun o i => objInsert o (headers.getD i "") (row.getD i Cell.null)) obj) key
      = objLookup obj key := by
  induction idxs generalizing obj with
  | nil => rfl
  | cons i rest ih =>
    rw [List.foldl_cons, ih _ (fun j hj => h j (List.mem_cons_of_mem _ hj)),
      objLookup_objInsert, if_neg (fun hk => h i (List.mem_cons_self _ _) hk.symm)]

theorem foldl_objInsert_lookup_last (headers : List String) (row : List Cell)
    (c : Nat) (hc : c < headers.length)
    (hlast : ∀ i, c < i → i < headers.length → headers.getD i "" ≠ headers.getD c "") :
    ∀ m, c < m → m ≤ headers.length →
      objLookup ((List.range m).foldl
          (fun o i => objInsert o (headers.getD i "") (row.getD i Cell.null)) [])
          (headers.getD c "")
        = some (row.getD c Cell.null) := by
  intro m
  induction m with
  | zero => omega
  | succ n ih =>
    intro hcm hm
    rw [List.range_succ, List.foldl_append, List.foldl_cons, List.foldl_nil]
    by_cases hn : c = n
    · subst hn
      rw [objLookup_objInsert, if_pos rfl]
    · have hcn : c < n := by omega
      rw [objLookup_objInsert, if_neg (fun hk => hlast n hcn (by omega) hk.symm),
        ih hcn (by omega)]

theorem buildRowObject_lookup_last (headers : List String) (row : List Cell)
    (c : Nat) (hc : c < headers.length)
    (hlast : ∀ i, c < i → i < headers.length → headers.getD i "" ≠ headers.getD c "") :
    objLookup (buildRowObject headers row) (headers.getD c "")
      = some (row.getD c Cell.null) :=
  foldl_objInsert_lookup_last headers row c hc hlast headers.length hc le_rfl

theorem foldl_objInsert_keys (headers : List String) (row : List Cell)
    (hnodup : headers.Nodup) :
    ∀ n, n ≤ headers.length →
      objKeys ((List.range n).foldl
          (fun o i => objInsert o (headers.getD i "") (row.getD i Cell.null)) [])
        = headers.take n := by
  intro n
  induction n with
  | zero => intro _; simp [objKeys]
  | succ m ih =>
    intro h
    have hm : m < headers.length := by omega
    rw [List.range_succ, List.foldl_append, List.foldl_cons, List.foldl_nil,
      objKeys_objInsert]
    have hkeys : objKeys ((List.range m).foldl
        (fun o i => objInsert o (headers.getD i "") (row.getD i Cell.null)) [])
        = headers.take m := ih (by omega)
    have hget : headers.getD m "" = headers[m] := by
      rw [List.getD_eq_getElem?_getD, List.getElem?_eq_getElem hm]
      rfl
    have hmem : headers[m] ∉ headers.take m := by
      intro hin
      obtain ⟨j, hjlt, hje⟩ := List.mem_iff_getElem.mp hin
      have hjm : j < m := by
        rw [List.length_take] at hjlt
        omega
      have hjlen : j < headers.length := by omega
      have hje2 : headers[j] = headers[m] := by
        rw [List.getElem_take] at hje
        exact hje
      have : j = m := (hnodup.getElem_inj_iff).mp hje2
      omega
    have hfalse : ¬ (objHasKey ((List.range m).foldl
        (fun o i => objInsert o (headers.getD i "") (row.getD i Cell.null)) [])
        (headers.getD m "") = true) := by
      rw [objHasKey_iff_mem_keys, hkeys, hget]
      exact hmem
    rw [if_neg hfalse, hkeys, hget]
    rw [List.take_succ, List.getElem?_eq_getElem hm]
    rfl

theorem buildRowObject_length_of_nodup (headers : List String) (row : List Cell)
    (hnodup : headers.Nodup) :
    (buildRowObject headers row).length = headers.length := by
  have h := foldl_objInsert_keys headers row hnodup headers.length le_rfl
  have hlen : (buildRowObject headers row).length
      = (objKeys (buildRowObject headers row)).length := by
    simp [objKeys]
  rw [hlen]
  unfold buildRowObject
  rw [h, List.take_length]

theorem foldl_congr_indices {β : Type} (idxs : List Nat) (f g : β → Nat → β) (b : β)
    (h : ∀ i ∈ idxs, ∀ o, f o i = g o i) : idxs.foldl f b = idxs.foldl g b := by
  induction idxs generalizing b with
  | nil => rfl
  | cons i rest ih =>
    rw [List.foldl_cons, List.foldl_cons, h i (List.mem_cons_self _ _),
      ih _ (fun j hj => h j (List.mem_cons_of_mem _ hj))]

theorem buildRowObject_take (headers : List String) (row : List Cell) :
    buildRowObject headers (row.take headers.length) = buildRowObject headers row := by
  unfold buildRowObject
  apply foldl_congr_indices
  intro i hi o
  have hilt : i < headers.length := List.mem_range.mp hi
  have : (row.take headers.length).getD i Cell.null = row.getD i Cell.null := by
    rw [List.getD_eq_get?, List.getD_eq_get?, List.get?_take hilt]
  rw [this]

theorem getD_map_lt {α β : Type} (f : α → β) (l : List α) (i : Nat) (d : α) (d' : β)
    (h : i < l.length) : (l.map f).getD i d' = f (l.getD i d) := by
  rw [List.getD_eq_getElem?_getD, List.getD_eq_getElem?_getD, List.getElem?_map,
    List.getElem?_eq_getElem h]
  rfl

theorem formatExcelData_truncates_helper (headersRow : List Cell)
    (dataRows : List (List Cell)) :
    formatExcelData (headersRow :: dataRows.map (fun r => r.take headersRow.length))
      = formatExcelData (headersRow :: dataRows) := by
  simp only [formatExcelData, List.map_map, List.length_map, FormatOutput.wrapped.injEq,
    ProjectedResult.mk.injEq, and_true, true_and]
  apply List.map_congr_left
  intro r _
  simp only [Function.comp]
  rw [show headersRow.length = (headersRow.map headerString).length from
    (List.length_map _ _).symm, buildRowObject_take]

theorem formatExcelData_lookup_of_last (headersRow : List Cell)
    (dataRows : List (List Cell)) (i c : Nat)
    (hi : i < dataRows.length) (hc : c < headersRow.length)
    (hlast : ∀ j, c < j → j < headersRow.length →
      headerString (headersRow.getD j Cell.null)
        ≠ headerString (headersRow.getD c Cell.null)) :
    objLookup ((dataRows.map (fun r => buildRowObject (headersRow.map headerString) r)).getD i [])
        (headerString (headersRow.getD c Cell.null))
      = some ((dataRows.getD i []).getD c Cell.null) := by
  rw [getD_map_lt _ _ i [] [] hi]
  have hkey : (headersRow.map headerString).getD c ""
      = headerString (headersRow.getD c Cell.null) :=
    getD_map_lt headerString headersRow c Cell.null "" hc
  rw [← hkey]
  have hc' : c < (headersRow.map headerString).length := by
    rw [List.length_map]
    exact hc
  refine buildRowObject_lookup_last _ _ c hc' ?_
  intro j hcj hj
  have hjlen : j < headersRow.length := by rwa [List.length_map] at hj
  rw [getD_map_lt headerString headersRow j Cell.null "" hjlen, hkey]
  exact hlast j hcj hjlen

/-!
Claim theorems.
-/

/-- C1 counterexample: with two header cells that trim to the same string
"a" and data row `[1, 2]`, the claim as stated demands that the row-object
at the trimmed header of column 0 holds the cell of column 0 (the value 1),
but the produced row-object maps "a" to the value of the later column (2). -/
theorem formatExcelData_duplicate_header_counterexample :
    headerString (Cell.str "a") = "a"
      ∧ formatExcelData [[Cell.str "a", Cell.str "a"], [Cell.num 1, Cell.num 2]]
          = .wrapped ⟨[[("a", Cell.num 2)]], 1, 2⟩
      ∧ objLookup [("a", Cell.num 2)] "a" = some (Cell.num 2)
      ∧ some (Cell.num 2) ≠ some (Cell.num 1) :=
  ⟨by decide, by decide, by decide, by decide⟩

/-- C1 (amended): in rows-as-objects mode, for every data row index `i` and
every column index `c` that is the LAST column bearing its trimmed header
string (no later column has an equal trimmed header), the `i`-th row-object
maps that header to `row_i[c]` when present and to null otherwise, and
cells at indices at or beyond the header width never affect the output
(the projection is invariant under truncating every data row to header
width). -/
theorem formatExcelData_row_projection (headersRow : List Cell)
    (dataRows : List (List Cell)) (i c : Nat)
    (hi : i < dataRows.length) (hc : c < headersRow.length)
    (hlast : ∀ j, c < j → j < headersRow.length →
      headerString (headersRow.getD j Cell.null)
        ≠ headerString (headersRow.getD c Cell.null)) :
    ∃ objs, formatExcelData (headersRow :: dataRows)
        = .wrapped ⟨objs, dataRows.length, headersRow.length⟩
      ∧ objLookup (objs.getD i []) (headerString (headersRow.getD c Cell.null))
          = some ((dataRows.getD i []).getD c Cell.null)
      ∧ formatExcelData (headersRow :: dataRows.map (fun r => r.take headersRow.length))
          = formatExcelData (headersRow :: dataRows) := by
  refine ⟨dataRows.map (fun r => buildRowObject (headersRow.map headerString) r), ?_, ?_, ?_⟩
  · simp [formatExcelData]
  · exact formatExcelData_lookup_of_last headersRow dataRows i c hi hc hlast
  · exact formatExcelData_truncates_helper headersRow dataRows

/-- C1 witness: the amended row-projection theorem applied to the sheet
with single header "a" and single data row `[7]`. -/
theorem formatExcelData_row_projection_witness :
    ∃ objs, formatExcelData [[Cell.str "a"], [Cell.num 7]]
        = .wrapped ⟨objs, 1, 1⟩
      ∧ objLookup (objs.getD 0 []) (headerString ([Cell.str "a"].getD 0 Cell.null))
          = some (([[Cell.num 7]].getD 0 []).getD 0 Cell.null)
      ∧ formatExcelData ([Cell.str "a"] :: [[Cell.num 7]].map (fun r => r.take [Cell.str "a"].length))
          = formatExcelData [[Cell.str "a"], [Cell.num 7]] :=
  formatExcelData_row_projection [Cell.str "a"] [[Cell.num 7]] 0 0
    (by decide) (by decide)
    (by
      intro j h1 h2
      exfalso
      simp only [List.length_cons, List.length_nil] at h2
      omega)

/-- C2 counterexample: two header cells trimming to the same string "a"
collapse to one object key, so the produced row-object has 1 key while the
header row has 2 cells. -/
theorem formatExcelData_keycount_counterexample :
    formatExcelData [[Cell.str "a", Cell.str "a"], [Cell.num 1]]
        = .wrapped ⟨[[("a", Cell.null)]], 1, 2⟩
      ∧ ([("a", Cell.null)] : RowObject).length = 1
      ∧ (1 : Nat) ≠ 2 :=
  ⟨by decide, by decide, by decide⟩

/-- C2 (amended): for every Sheet with at least one row whose trimmed
header strings are pairwise distinct, in rows-as-objects mode every
produced row-object has exactly as many keys as the header row has cells,
regardless of how ragged the data rows are. -/
theorem formatExcelData_keycount (headersRow : List Cell)
    (dataRows : List (List Cell)) (i : Nat)
    (hnodup : (headersRow.map headerString).Nodup) (hi : i < dataRows.length) :
    ∃ objs, formatExcelData (headersRow :: dataRows)
        = .wrapped ⟨objs, dataRows.length, headersRow.length⟩
      ∧ (objs.getD i []).length = headersRow.length := by
  refine ⟨dataRows.map (fun r => buildRowObject (headersRow.map headerString) r), ?_, ?_⟩
  · simp [formatExcelData]
  · rw [getD_map_lt _ _ i [] [] hi,
      buildRowObject_length_of_nodup _ _ hnodup, List.length_map]

/-- C2 witness: the key-count theorem applied to headers `["a", "b"]` and
the ragged data row `[1]` (one key count comes out as 2, the header count). -/
theorem formatExcelData_keycount_witness :
    ∃ objs, formatExcelData [[Cell.str "a", Cell.str "b"], [Cell.num 1]]
        = .wrapped ⟨objs, 1, 2⟩
      ∧ (objs.getD 0 []).length = 2 :=
  formatExcelData_keycount [Cell.str "a", Cell.str "b"] [[Cell.num 1]] 0
    (by decide) (by decide)

/-- C3: in rows-as-objects mode a Sheet projects to the empty object
exactly when it has zero rows: the empty object is returned for the empty
sheet, and no other input shape yields it (nonempty sheets always yield
the wrapper record). -/
theorem formatExcelData_emptyObj_iff (data : List (List Cell)) :
    formatExcelData data = .emptyObj ↔ data = [] := by
  cases data with
  | nil => simp [formatExcelData]
  | cons h t => simp [formatExcelData]

/-- C4: for every Sheet with at least one row (written `headersRow ::
dataRows`, so N = length of the whole sheet is at least 1), the projection
returns the wrapper record whose `totalRows` field is N - 1, whose
`totalColumns` field is the header-row length, and whose `data` field has
exactly N - 1 row-objects. -/
theorem formatExcelData_wrapper_record (headersRow : List Cell)
    (dataRows : List (List Cell)) :
    ∃ objs, formatExcelData (headersRow :: dataRows)
        = .wrapped ⟨objs, (headersRow :: dataRows).length - 1, headersRow.length⟩
      ∧ objs.length = (headersRow :: dataRows).length - 1 := by
  refine ⟨dataRows.map (fun r => buildRowObject (headersRow.map headerString) r), ?_, ?_⟩
  · simp [formatExcelData]
  · simp

/-- C5: when the header row contains exactly two column indices c1 < c2
whose cells have equal trimmed string representations (the shared header
occurs at no other column), the projector still returns the normal
wrapper record (it does not fail), and in every produced row-object the
shared header key holds the value taken from the later column c2
(last-write-wins). -/
theorem formatExcelData_collision_last_write_wins (headersRow : List Cell)
    (dataRows : List (List Cell)) (c1 c2 i : Nat)
    (h12 : c1 < c2) (hc2 : c2 < headersRow.length)
    (hshare : headerString (headersRow.getD c1 Cell.null)
        = headerString (headersRow.getD c2 Cell.null))
    (honly : ∀ j, j < headersRow.length →
      headerString (headersRow.getD j Cell.null)
          = headerString (headersRow.getD c2 Cell.null) →
      j = c1 ∨ j = c2)
    (hi : i < dataRows.length) :
    ∃ objs, formatExcelData (headersRow :: dataRows)
        = .wrapped ⟨objs, dataRows.length, headersRow.length⟩
      ∧ objLookup (objs.getD i []) (headerString (headersRow.getD c2 Cell.null))
          = some ((dataRows.getD i []).getD c2 Cell.null) := by
  refine ⟨dataRows.map (fun r => buildRowObject (headersRow.map headerString) r), ?_, ?_⟩
  · simp [formatExcelData]
  · refine formatExcelData_lookup_of_last headersRow dataRows i c2 hi hc2 ?_
    intro j hcj hj heq
    rcases honly j hj heq with h | h
    · omega
    · omega

/-- C5 witness: headers `[" a ", "a"]` (both trim to "a") with data row
`[1, 2]`: the shared key "a" holds the value 2 of the later column. -/
theorem formatExcelData_collision_last_write_wins_witness :
    ∃ objs, formatExcelData [[Cell.str " a ", Cell.str "a"], [Cell.num 1, Cell.num 2]]
        = .wrapped ⟨objs, 1, 2⟩
      ∧ objLookup (objs.getD 0 [])
            (headerString ([Cell.str " a ", Cell.str "a"].getD 1 Cell.null))
          = some (([[Cell.num 1, Cell.num 2]].getD 0 []).getD 1 Cell.null) :=
  formatExcelData_collision_last_write_wins
    [Cell.str " a ", Cell.str "a"] [[Cell.num 1, Cell.num 2]] 0 1 0
    (by decide) (by decide) (by decide)
    (by
      intro j hj heq
      simp only [List.length_cons, List.length_nil] at hj
      omega)
    (by decide)

/-- C6: the four validation checks run in the fixed order method,
file-presence, size, content-type; the first failing check alone fixes the
response (405 "Method Not Allowed", 400 "Invalid file upload", 413, or the
fixed unsupported-type 400), and on any rejection the decoder is never
consulted (the response is the same for every decode function). -/
theorem validator_fixed_order
    (d1 d2 : UploadedFile → Except String (List (List Cell))) :
    (∀ m f, m ≠ "POST" → handleRequest ⟨m, f⟩ d1 = ⟨405, "Method Not Allowed"⟩)
    ∧ (handleRequest ⟨"POST", none⟩ d1 = ⟨400, "Invalid file upload"⟩)
    ∧ (∀ f, MAX_FILE_SIZE < f.size →
        handleRequest ⟨"POST", some f⟩ d1 = ⟨413, sizeLimitMessage⟩)
    ∧ (∀ f, f.size ≤ MAX_FILE_SIZE → isValidExcelType f.type = false →
        handleRequest ⟨"POST", some f⟩ d1
          = ⟨400, "Invalid file type. Please upload an Excel file (XLSX or XLS)"⟩)
    ∧ (∀ req s b, validateRequest req = .reject s b →
        handleRequest req d1 = ⟨s, b⟩ ∧ handleRequest req d1 = handleRequest req d2) := by
  refine ⟨?_, ?_, ?_, ?_, ?_⟩
  · intro m f h
    simp [handleRequest, validateRequest, h]
  · simp [handleRequest, validateRequest]
  · intro f h
    simp [handleRequest, validateRequest, h]
  · intro f hsize htype
    have h1 : ¬ (f.size > MAX_FILE_SIZE) := by omega
    simp [handleRequest, validateRequest, h1, htype]
  · intro req s b h
    constructor
    · simp [handleRequest, h]
    · simp [handleRequest, h]

/-- C6 witness: the ordering theorem applied at one concrete request per
check, with two different decode functions. -/
theorem validator_fixed_order_witness :
    handleRequest ⟨"GET", some ⟨10, "text/plain"⟩⟩ (fun _ => .ok [])
        = ⟨405, "Method Not Allowed"⟩
      ∧ handleRequest ⟨"POST", none⟩ (fun _ => .ok []) = ⟨400, "Invalid file upload"⟩
      ∧ handleRequest ⟨"POST", some ⟨6291456, "text/plain"⟩⟩ (fun _ => .ok [])
          = ⟨413, sizeLimitMessage⟩
      ∧ handleRequest ⟨"POST", some ⟨10, "text/plain"⟩⟩ (fun _ => .ok [])
          = ⟨400, "Invalid file type. Please upload an Excel file (XLSX or XLS)"⟩
      ∧ (handleRequest ⟨"GET", none⟩ (fun _ => .ok []) = ⟨405, "Method Not Allowed"⟩
          ∧ handleRequest ⟨"GET", none⟩ (fun _ => .ok [])
              = handleRequest ⟨"GET", none⟩ (fun _ => .error "x")) :=
  ⟨(validator_fixed_order (fun _ => .ok []) (fun _ => .error "x")).1 "GET"
      (some ⟨10, "text/plain"⟩) (by decide),
    (validator_fixed_order (fun _ => .ok []) (fun _ => .error "x")).2.1,
    (validator_fixed_order (fun _ => .ok []) (fun _ => .error "x")).2.2.1
      ⟨6291456, "text/plain"⟩ (by decide),
    (validator_fixed_order (fun _ => .ok []) (fun _ => .error "x")).2.2.2.1
      ⟨10, "text/plain"⟩ (by decide) (by decide),
    (validator_fixed_order (fun _ => .ok []) (fun _ => .error "x")).2.2.2.2
      ⟨"GET", none⟩ 405 "Method Not Allowed" (by decide)⟩

/-- C7: once the method and file-presence checks have passed, an upload
whose byte length strictly exceeds MAX_FILE_SIZE = 5 * 1024 * 1024 gets
status 413 with a body built around the limit expressed in MiB, while an
upload at or below the limit passes the size check and the outcome is
decided by the content-type check alone. -/
theorem size_limit_check (d : UploadedFile → Except String (List (List Cell))) :
    (∀ f, MAX_FILE_SIZE < f.size →
      handleRequest ⟨"POST", some f⟩ d = ⟨413, sizeLimitMessage⟩
        ∧ sizeLimitMessage
            = "File exceeds " ++ toString (MAX_FILE_SIZE / 1024 / 1024) ++ "MB limit"
        ∧ MAX_FILE_SIZE = 5 * 1024 * 1024)
    ∧ (∀ f, f.size ≤ MAX_FILE_SIZE →
      validateRequest ⟨"POST", some f⟩
        = (if isValidExcelType f.type then .accept f
           else .reject 400 "Invalid file type. Please upload an Excel file (XLSX or XLS)")) := by
  constructor
  · intro f h
    refine ⟨?_, rfl, rfl⟩
    simp [handleRequest, validateRequest, h]
  · intro f h
    have h1 : ¬ (f.size > MAX_FILE_SIZE) := by omega
    by_cases hv : isValidExcelType f.type = true
    · simp [validateRequest, h1, hv]
    · simp [validateRequest, h1, hv]

/-- C7 witness: the size-check theorem applied to a 6 MiB upload
(rejected with 413) and a 10-byte XLSX upload (passed on to the
content-type check, which accepts it). -/
theorem size_limit_check_witness :
    (handleRequest ⟨"POST", some ⟨6291456, "text/plain"⟩⟩ (fun _ => .ok [])
        = ⟨413, sizeLimitMessage⟩
      ∧ sizeLimitMessage
          = "File exceeds " ++ toString (MAX_FILE_SIZE / 1024 / 1024) ++ "MB limit"
      ∧ MAX_FILE_SIZE = 5 * 1024 * 1024)
    ∧ validateRequest ⟨"POST", some ⟨10, xlsxMimeType⟩⟩
        = (if isValidExcelType xlsxMimeType then .accept ⟨10, xlsxMimeType⟩
           else .reject 400 "Invalid file type. Please upload an Excel file (XLSX or XLS)") :=
  ⟨(size_limit_check (fun _ => .ok [])).1 ⟨6291456, "text/plain"⟩ (by decide),
    (size_limit_check (fun _ => .ok [])).2 ⟨10, xlsxMimeType⟩ (by decide)⟩

/-- C8: for a request that passes all four validation checks, any decoding
failure produces the single fixed 500 response "Error processing Excel
file"; the response does not depend on the error cause `e`, so the cause
never reaches the response body. -/
theorem decode_failure_opaque_500 (req : RequestModel) (f : UploadedFile)
    (e : String) (decode : UploadedFile → Except String (List (List Cell)))
    (hacc : validateRequest req = .accept f) (herr : decode f = .error e) :
    handleRequest req decode = ⟨500, processingErrorMessage⟩
      ∧ processingErrorMessage = "Error processing Excel file" := by
  refine ⟨?_, rfl⟩
  simp [handleRequest, hacc, herr]

/-- C8 witness: a valid 10-byte XLSX upload whose decoder fails with cause
"boom" yields the fixed opaque 500 response. -/
theorem decode_failure_opaque_500_witness :
    handleRequest ⟨"POST", some ⟨10, xlsxMimeType⟩⟩ (fun _ => .error "boom")
        = ⟨500, processingErrorMessage⟩
      ∧ processingErrorMessage = "Error processing Excel file" :=
  decode_failure_opaque_500 ⟨"POST", some ⟨10, xlsxMimeType⟩⟩ ⟨10, xlsxMimeType⟩
    "boom" (fun _ => .error "boom") (by decide) rfl

/-- C9: projection is deterministic: projecting equal Sheets yields equal
ProjectedResult values and byte-identical serialized JSON; the result
contains nothing run-dependent. -/
theorem projection_deterministic (d1 d2 : List (List Cell)) (h : d1 = d2) :
    formatExcelData d1 = formatExcelData d2
      ∧ stringifyOutput (formatExcelData d1) = stringifyOutput (formatExcelData d2) := by
  subst h
  exact ⟨rfl, rfl⟩

/-- C9 witness: determinism applied to two syntactically equal sheets. -/
theorem projection_deterministic_witness :
    formatExcelData [[Cell.str "h"], [Cell.num 3]]
        = formatExcelData [[Cell.str "h"], [Cell.num 3]]
      ∧ stringifyOutput (formatExcelData [[Cell.str "h"], [Cell.num 3]])
          = stringifyOutput (formatExcelData [[Cell.str "h"], [Cell.num 3]]) :=
  projection_deterministic [[Cell.str "h"], [Cell.num 3]]
    [[Cell.str "h"], [Cell.num 3]] rfl

/-- C10: a Sheet consisting of exactly one row (a header row, no data
rows) projects to the full wrapper record with empty data, totalRows 0 and
totalColumns the header length; it does not fall into the empty-object
special case, which applies only to zero-row Sheets. -/
theorem single_row_full_wrapper (headersRow : List Cell) :
    formatExcelData [headersRow] = .wrapped ⟨[], 0, headersRow.length⟩
      ∧ formatExcelData [headersRow] ≠ .emptyObj := by
  constructor
  · simp [formatExcelData]
  · simp [formatExcelData]
